import Mathlib

/-!
Shallow embedding of the request-signing / client-construction core of the
storage SDK (source file: sdk/storage/src/clients/storage_client.rs), together
with models of the small pieces of its collaborators that the source calls
(the url crate, azure_core header constants, the time crate formatter).
Definitions mirror the source; theorems settle the frozen claims about it.
-/

/- ===================== Error model (azure_core) ===================== -/

/-- Model of the error kinds of the azure_core Error type that this module
uses: Credential for unsupported-credential operations, DataConversion for
malformed URLs and SAS tokens, Other for the catch-all connection-string
failure. -/
inductive ErrorKind
  | Credential
  | DataConversion
  | Other
  deriving DecidableEq, Repr

/-- Model of azure_core Error: a kind together with a message. -/
structure Error where
  kind : ErrorKind
  message : String
  deriving DecidableEq, Repr

/-- Decidable equality for Except values, used to evaluate concrete runs
of the embedded functions. -/
def exceptDecEq {ε α : Type} [DecidableEq ε] [DecidableEq α] :
    DecidableEq (Except ε α)
  | Except.error x, Except.error y =>
    match decEq x y with
    | isTrue h => isTrue (congrArg Except.error h)
    | isFalse h => isFalse (fun hc => h (Except.error.inj hc))
  | Except.error _, Except.ok _ => isFalse (fun hc => Except.noConfusion hc)
  | Except.ok _, Except.error _ => isFalse (fun hc => Except.noConfusion hc)
  | Except.ok x, Except.ok y =>
    match decEq x y with
    | isTrue h => isTrue (congrArg Except.ok h)
    | isFalse h => isFalse (fun hc => h (Except.ok.inj hc))

instance {ε α : Type} [DecidableEq ε] [DecidableEq α] : DecidableEq (Except ε α) :=
  exceptDecEq

/-- Boolean success test for an Except value. -/
def exceptIsOk {ε α : Type} : Except ε α → Bool
  | Except.ok _ => true
  | Except.error _ => false

/-- The kind of the error carried by an Except over the azure Error model,
when there is one. -/
def exceptErrKind {α : Type} : Except Error α → Option ErrorKind
  | Except.ok _ => none
  | Except.error e => some e.kind

/- ===================== Url model (url crate) ===================== -/

/-- Parse errors of the url crate model. -/
inductive UrlParseError
  | RelativeUrlWithoutBase
  | EmptyHost
  | InvalidPort
  | InvalidDomainCharacter
  deriving DecidableEq, Repr

/-- The path of a URL: either a hierarchical list of slash-separated
segments, or a single non-hierarchical string (the cannot-be-a-base case of
the url crate, e.g. the path of mailto URLs). -/
inductive UrlPath
  | nonHierarchical (s : String)
  | segments (l : List String)
  deriving DecidableEq, Repr

/-- Model of the url crate Url record: scheme, optional host and port,
path, optional query and fragment. Percent-encoding and IDNA processing of
the external crate are abstracted away; hosts and segments are kept as the
character strings the parser saw. -/
structure Url where
  scheme : String
  host : Option String
  port : Option Nat
  path : UrlPath
  query : Option String
  fragment : Option String
  deriving DecidableEq, Repr

/-- A URL cannot be a base exactly when its path is non-hierarchical. -/
def Url.cannot_be_a_base (u : Url) : Bool :=
  match u.path with
  | UrlPath.nonHierarchical _ => true
  | UrlPath.segments _ => false

def isAsciiAlpha (c : Char) : Bool :=
  (Char.ofNat 97 ≤ c && c ≤ Char.ofNat 122) || (Char.ofNat 65 ≤ c && c ≤ Char.ofNat 90)

def isAsciiDigit (c : Char) : Bool :=
  Char.ofNat 48 ≤ c && c ≤ Char.ofNat 57

def toLowerChar (c : Char) : Char :=
  if Char.ofNat 65 ≤ c && c ≤ Char.ofNat 90 then Char.ofNat (c.toNat + 32) else c

def lowerAscii (s : String) : String :=
  String.mk (s.data.map toLowerChar)

/-- The url crate removes ASCII tab and newline anywhere in the input and
trims leading and trailing C0 controls and spaces before parsing. -/
def sanitizeChars (cs : List Char) : List Char :=
  let cs := cs.filter (fun c => !(c = Char.ofNat 9 || c = Char.ofNat 10 || c = Char.ofNat 13))
  let cs := cs.dropWhile (fun c => c.toNat ≤ 32)
  (cs.reverse.dropWhile (fun c => c.toNat ≤ 32)).reverse

def isSchemeChar (c : Char) : Bool :=
  isAsciiAlpha c || isAsciiDigit c || c = '+' || c = '-' || c = '.'

/-- Split the scheme off a character list: an ASCII-alpha-led run of scheme
characters followed by a colon. Returns the lowercased scheme and the rest,
or none when the input has no scheme. -/
def splitScheme (cs : List Char) : Option (List Char × List Char) :=
  match cs with
  | [] => none
  | c :: _ =>
    if isAsciiAlpha c then
      let schemePart := cs.takeWhile isSchemeChar
      let rest := cs.dropWhile isSchemeChar
      match rest with
      | ':' :: r => some (schemePart.map toLowerChar, r)
      | _ => none
    else none

def specialSchemes : List String := ["http", "https", "ws", "wss", "ftp", "file"]

def defaultPort (scheme : String) : Option Nat :=
  if scheme = "http" then some 80
  else if scheme = "https" then some 443
  else if scheme = "ws" then some 80
  else if scheme = "wss" then some 443
  else if scheme = "ftp" then some 21
  else none

/-- Split a character list at the first occurrence of a character; the
second component is none when the character does not occur. -/
def splitAtFirst (c : Char) (cs : List Char) : List Char × Option (List Char) :=
  let before := cs.takeWhile (fun x => x ≠ c)
  let rest := cs.dropWhile (fun x => x ≠ c)
  match rest with
  | [] => (before, none)
  | _ :: after => (before, some after)

/-- Split a character list on every occurrence of a character. -/
def splitOnChar (c : Char) : List Char → List (List Char)
  | [] => [[]]
  | x :: xs =>
    if x = c then [] :: splitOnChar c xs
    else
      match splitOnChar c xs with
      | h :: t => (x :: h) :: t
      | [] => [[x]]

def digitsToNat? (cs : List Char) : Option Nat :=
  match cs with
  | [] => none
  | _ =>
    if cs.all isAsciiDigit then
      some (cs.foldl (fun n c => 10 * n + (c.toNat - 48)) 0)
    else none

def forbiddenHostChar (c : Char) : Bool :=
  c.toNat ≤ 32 || c = '#' || c = '/' || c = '?' || c = '@' || c = '<' || c = '>' ||
    c = '[' || c = ']' || c = '^' || c = '|' || c = '\\' || c = '%'

/-- Split an authority at the last colon into host characters and an
optional port character run. -/
def splitLastColon (cs : List Char) : List Char × Option (List Char) :=
  let rev := cs.reverse
  if rev.contains ':' then
    ((rev.dropWhile (fun c => c ≠ ':')).tail.reverse,
      some ((rev.takeWhile (fun c => c ≠ ':')).reverse))
  else (cs, none)

/-- Parse a host-and-port authority for a given scheme. Special schemes
require a non-empty host; a stated port must be a number of at most 65535
and is dropped when it is the default port of the scheme. -/
def parseHostPort (scheme : String) (special : Bool) (auth : List Char) :
    Except UrlParseError (Option String × Option Nat) :=
  if auth.isEmpty then
    if special then Except.error UrlParseError.EmptyHost
    else Except.ok (some "", none)
  else
    let (hostCs, portCs) := splitLastColon auth
    let port? : Except UrlParseError (Option Nat) :=
      match portCs with
      | none => Except.ok none
      | some [] => Except.ok none
      | some ds =>
        match digitsToNat? ds with
        | none => Except.error UrlParseError.InvalidPort
        | some n =>
          if n > 65535 then Except.error UrlParseError.InvalidPort
          else if defaultPort scheme = some n then Except.ok none
          else Except.ok (some n)
    match port? with
    | Except.error e => Except.error e
    | Except.ok port =>
      if hostCs.isEmpty ∧ special then Except.error UrlParseError.EmptyHost
      else if hostCs.any forbiddenHostChar then
        Except.error UrlParseError.InvalidDomainCharacter
      else Except.ok (some (lowerAscii (String.mk hostCs)), port)

/-- Split the part after the authority into path characters, query and
fragment: the fragment starts at the first hash, the query at the first
question mark before it. -/
def splitPathQueryFragment (cs : List Char) :
    List Char × Option String × Option String :=
  let (beforeFrag, frag) := splitAtFirst '#' cs
  let (pathCs, query) := splitAtFirst '?' beforeFrag
  (pathCs, query.map (fun l => String.mk l), frag.map (fun l => String.mk l))

/-- Turn a path character run that begins with a slash (or is empty) into
its slash-separated segments; an empty path of a host-bearing special URL
is the root path, a single empty segment. -/
def pathToSegments (special : Bool) (pathCs : List Char) : List String :=
  if pathCs.isEmpty then
    if special then [""] else []
  else (splitOnChar '/' (pathCs.drop 1)).map (fun l => String.mk l)

/-- Model of url crate Url parse, covering the shapes this module produces:
absolute URLs with a scheme, an optional authority, hierarchical or
non-hierarchical paths, query and fragment. Dot-segment normalization and
percent-encoding of the external crate are not modelled. -/
def Url.parse (input : String) : Except UrlParseError Url :=
  let cs := sanitizeChars input.data
  match splitScheme cs with
  | none => Except.error UrlParseError.RelativeUrlWithoutBase
  | some (schemeCs, rest) =>
    let scheme : String := String.mk schemeCs
    if specialSchemes.contains scheme then
      let rest := rest.dropWhile (fun c => c = '/' || c = '\\')
      let auth := rest.takeWhile (fun c => !(c = '/' || c = '\\' || c = '?' || c = '#'))
      let afterAuth := rest.dropWhile (fun c => !(c = '/' || c = '\\' || c = '?' || c = '#'))
      match parseHostPort scheme true auth with
      | Except.error e => Except.error e
      | Except.ok (host, port) =>
        let (pathCs, query, frag) := splitPathQueryFragment afterAuth
        let pathCs := pathCs.map (fun c => if c = '\\' then '/' else c)
        Except.ok { scheme := scheme, host := host, port := port,
                    path := UrlPath.segments (pathToSegments true pathCs),
                    query := query, fragment := frag }
    else
      match rest with
      | '/' :: '/' :: rest2 =>
        let auth := rest2.takeWhile (fun c => !(c = '/' || c = '?' || c = '#'))
        let afterAuth := rest2.dropWhile (fun c => !(c = '/' || c = '?' || c = '#'))
        match parseHostPort scheme false auth with
        | Except.error e => Except.error e
        | Except.ok (host, port) =>
          let (pathCs, query, frag) := splitPathQueryFragment afterAuth
          Except.ok { scheme := scheme, host := host, port := port,
                      path := UrlPath.segments (pathToSegments false pathCs),
                      query := query, fragment := frag }
      | '/' :: _ =>
        let (pathCs, query, frag) := splitPathQueryFragment rest
        Except.ok { scheme := scheme, host := none, port := none,
                    path := UrlPath.segments (pathToSegments false pathCs),
                    query := query, fragment := frag }
      | _ =>
        let (pathCs, query, frag) := splitPathQueryFragment rest
        Except.ok { scheme := scheme, host := none, port := none,
                    path := UrlPath.nonHierarchical (String.mk pathCs),
                    query := query, fragment := frag }

/-- Model of url crate Display: serialize a Url back to a string. Default
ports are already dropped at parse time, so every stored port is printed. -/
def Url.serialize (u : Url) : String :=
  u.scheme ++ ":" ++
  (match u.host with
   | some h => "//" ++ h ++ (match u.port with
     | some p => ":" ++ toString p
     | none => "")
   | none => "") ++
  (match u.path with
   | UrlPath.nonHierarchical s => s
   | UrlPath.segments l => String.join (l.map (fun seg => "/" ++ seg))) ++
  (match u.query with
   | some q => "?" ++ q
   | none => "") ++
  (match u.fragment with
   | some f => "#" ++ f
   | none => "")

/-- A placeholder hierarchical URL used only as the default of getD. -/
def defaultUrl : Url :=
  { scheme := "https", host := none, port := none,
    path := UrlPath.segments [""], query := none, fragment := none }

/-- Model of url crate relative parsing against a base URL, restricted to
the only shape this module feeds it: a reference that starts with a
question mark replaces the query (and drops the fragment) of the base.
Other inputs fall back to absolute parsing. -/
def Url.parseWithBase (base : Url) (input : String) : Except UrlParseError Url :=
  let cs := sanitizeChars input.data
  match cs with
  | '?' :: rest =>
    let (qf, frag) := splitAtFirst '#' rest
    Except.ok { base with query := some (String.mk qf),
                          fragment := frag.map (fun l => String.mk l) }
  | _ => Url.parse input

def hexVal? (c : Char) : Option Nat :=
  if isAsciiDigit c then some (c.toNat - 48)
  else if Char.ofNat 97 ≤ c && c ≤ Char.ofNat 102 then some (c.toNat - 87)
  else if Char.ofNat 65 ≤ c && c ≤ Char.ofNat 70 then some (c.toNat - 55)
  else none

/-- Percent-decoding of the form-urlencoded decoder: a percent sign
followed by two hex digits becomes the coded character, anything else is
kept verbatim. -/
def percentDecode : List Char → List Char
  | [] => []
  | '%' :: h :: l :: rest2 =>
    match hexVal? h, hexVal? l with
    | some a, some b => Char.ofNat (16 * a + b) :: percentDecode rest2
    | _, _ => '%' :: percentDecode (h :: l :: rest2)
  | '%' :: rest => '%' :: percentDecode rest
  | c :: rest => c :: percentDecode rest

/-- Form-urlencoded component decoding: plus becomes space, then percent
sequences are decoded. -/
def decodeFormComponent (cs : List Char) : String :=
  String.mk (percentDecode (cs.map (fun c => if c = '+' then ' ' else c)))

/-- Model of form_urlencoded parse as used by url crate query_pairs: split
the query on ampersands, drop empty pieces, split each piece at its first
equals sign (missing value is empty), and decode both sides. -/
def formUrlencodedParse (q : String) : List (String × String) :=
  (splitOnChar '&' q.data).filterMap (fun piece =>
    if piece.isEmpty then none
    else
      let (k, v) := splitAtFirst '=' piece
      some (decodeFormComponent k, decodeFormComponent (v.getD [])))

/-- Model of url crate query_pairs: the ordered key-value pairs of the
query string, empty when there is no query. -/
def Url.query_pairs (u : Url) : List (String × String) :=
  match u.query with
  | none => []
  | some q => formUrlencodedParse q

/- ===================== Time model (time crate, azure_core date) ===================== -/

/-- Model of the time crate OffsetDateTime as a count of unix seconds
(sub-second precision is irrelevant to this module). -/
structure OffsetDateTime where
  unix_seconds : Int
  deriving DecidableEq, Repr

def pad2 (n : Nat) : String :=
  if n < 10 then "0" ++ toString n else toString n

def dayNames : List String := ["Sun", "Mon", "Tue", "Wed", "Thu", "Fri", "Sat"]

def monthNames : List String :=
  ["Jan", "Feb", "Mar", "Apr", "May", "Jun", "Jul", "Aug", "Sep", "Oct", "Nov", "Dec"]

/-- Modelled from the spec: azure_core date to_rfc1123 (the crate is not
under src/) renders a timestamp in RFC-1123 form, for example
Thu, 01 Jan 1970 00:00:00 GMT. Calendar fields are computed from the unix
second count with the standard civil-from-days conversion. -/
def date.to_rfc1123 (dt : OffsetDateTime) : String :=
  let total := dt.unix_seconds
  let days : Int := Int.fdiv total 86400
  let secOfDay : Nat := (total - days * 86400).toNat
  let weekday : Nat := (Int.fmod (days + 4) 7).toNat
  let z : Int := days + 719468
  let era : Int := Int.fdiv z 146097
  let doe : Nat := (z - era * 146097).toNat
  let yoe : Nat := (doe - doe / 1460 + doe / 36524 - doe / 146096) / 365
  let yr : Int := (yoe : Int) + era * 400
  let doy : Nat := doe - (365 * yoe + yoe / 4 - yoe / 100)
  let mp : Nat := (5 * doy + 2) / 153
  let d : Nat := doy - (153 * mp + 2) / 5 + 1
  let m : Nat := if mp < 10 then mp + 3 else mp - 9
  let yr : Int := if m ≤ 2 then yr + 1 else yr
  let h : Nat := secOfDay / 3600
  let mi : Nat := (secOfDay / 60) % 60
  let s : Nat := secOfDay % 60
  dayNames.getD weekday "Sun" ++ ", " ++ pad2 d ++ " " ++
    monthNames.getD (m - 1) "Jan" ++ " " ++ toString yr ++ " " ++
    pad2 h ++ ":" ++ pad2 mi ++ ":" ++ pad2 s ++ " GMT"

/- ===================== Header and request model (azure_core) ===================== -/

/-- Modelled from the spec: the azure_core content-length header name
(header names are case-insensitive; azure_core stores them lowercased). -/
def CONTENT_LENGTH : String := "content-length"

/-- Modelled from the spec: the azure_core request-date header name. -/
def MS_DATE : String := "x-ms-date"

/-- Modelled from the spec: the azure_core API-version header name. -/
def VERSION : String := "x-ms-version"

/-- The fixed API version pinned by this module. -/
def AZURE_VERSION : String := "2019-12-12"

/-- Model of the azure_core HTTP method set. -/
inductive Method
  | get
  | head
  | post
  | put
  | delete
  | patch
  deriving DecidableEq, Repr

/-- Model of an azure_core request body as its bytes. -/
abbrev Body := List Nat

def Body.len (b : Body) : Nat := b.length

def EMPTY_BODY : Body := []

/-- Header mappings are modelled as ordered name-value lists whose names
are kept lowercased; insertion removes any previous entry of the same
name, so the last write wins as in the azure_core map. -/
abbrev Headers := List (String × String)

def headersGet (hs : Headers) (name : String) : Option String :=
  (hs.find? (fun p => p.1 == lowerAscii name)).map (fun p => p.2)

/-- Model of azure_core Request: url, method, header map, body. -/
structure Request where
  url : Url
  method : Method
  headers : Headers
  body : Body
  deriving DecidableEq, Repr

def Request.new (url : Url) (method : Method) : Request :=
  { url := url, method := method, headers := [], body := [] }

def Request.insert_header (r : Request) (name value : String) : Request :=
  let n := lowerAscii name
  { r with headers := r.headers.filter (fun p => !(p.1 == n)) ++ [(n, value)] }

def Request.set_body (r : Request) (b : Body) : Request :=
  { r with body := b }

/- ===================== Credentials (source) ===================== -/

/-- The credential union of the source. The externally-owned token
provider of the TokenCredential variant is never inspected by this module
and is modelled as an opaque unit handle. -/
inductive StorageCredentials
  | Key (account : String) (key : String)
  | SASToken (params : List (String × String))
  | BearerToken (token : String)
  | TokenCredential (credential : Unit)
  | Anonymous
  deriving DecidableEq, Repr

def StorageCredentials.isKey : StorageCredentials → Bool
  | StorageCredentials.Key _ _ => true
  | _ => false

def StorageCredentials.access_key (account key : String) : StorageCredentials :=
  StorageCredentials.Key account key

def StorageCredentials.bearer_token (token : String) : StorageCredentials :=
  StorageCredentials.BearerToken token

def StorageCredentials.token_credential (credential : Unit) : StorageCredentials :=
  StorageCredentials.TokenCredential credential

def StorageCredentials.anonymous : StorageCredentials :=
  StorageCredentials.Anonymous

/- ===================== SAS parsing (source) ===================== -/

/-- Rust str starts_with on the question-mark character: the first
character is a question mark. -/
def startsWithQuestionMark (s : String) : Bool :=
  s.data.head? == some '?'

/-- The fixed base URL of get_sas_token_parms; any base will do, it only
anchors the relative query parse. -/
def sasBaseUrl : Url :=
  (Url.parse "https://blob.core.windows.net").toOption.getD defaultUrl

/-- Embedding of get_sas_token_parms: parse the SAS token, with or without
its leading question mark, as a query reference against a fixed base and
collect the ordered query pairs; a parse failure becomes a DataConversion
error. -/
def get_sas_token_parms (sas_token : String) : Except Error (List (String × String)) :=
  let parsed :=
    if startsWithQuestionMark sas_token then Url.parseWithBase sasBaseUrl sas_token
    else Url.parseWithBase sasBaseUrl ("?" ++ sas_token)
  match parsed with
  | Except.error _ =>
    Except.error { kind := ErrorKind.DataConversion,
                   message := "failed to parse SAS token: " ++ sas_token }
  | Except.ok url => Except.ok url.query_pairs

def StorageCredentials.sas_token (token : String) : Except Error StorageCredentials :=
  match get_sas_token_parms token with
  | Except.error e => Except.error e
  | Except.ok params => Except.ok (StorageCredentials.SASToken params)

/- ===================== Account SAS types ===================== -/

/-- Modelled from the spec: the resource scope of an account shared access
signature (the account_sas module is not under src/). -/
inductive AccountSasResource
  | blob
  | queue
  | table
  | file
  deriving DecidableEq, Repr

/-- Modelled from the spec: the resource-type flags of an account SAS. -/
inductive AccountSasResourceType
  | service
  | container
  | object
  deriving DecidableEq, Repr

/-- Modelled from the spec: the permission flags of an account SAS. -/
structure AccountSasPermissions where
  read : Bool := false
  write : Bool := false
  del : Bool := false
  list : Bool := false
  deriving DecidableEq, Repr

/-- Modelled from the spec: an account shared access signature holds the
account, the raw key material, the resource scope, resource-type flags,
expiry and permission flags it was minted from (the account_sas module is
not under src/; its new is a field-storing constructor). -/
structure AccountSharedAccessSignature where
  account : String
  key : String
  resource : AccountSasResource
  resource_type : AccountSasResourceType
  expiry : OffsetDateTime
  permissions : AccountSasPermissions
  deriving DecidableEq, Repr

def AccountSharedAccessSignature.new (account key : String)
    (resource : AccountSasResource) (resource_type : AccountSasResourceType)
    (expiry : OffsetDateTime) (permissions : AccountSasPermissions) :
    AccountSharedAccessSignature :=
  { account := account, key := key, resource := resource,
    resource_type := resource_type, expiry := expiry, permissions := permissions }

/- ===================== Policies and pipeline ===================== -/

/-- Modelled from the spec: the authorization policy object holds a shared
copy of the credential (authorization_policy.rs is not under src/). -/
structure AuthorizationPolicy where
  credentials : StorageCredentials
  deriving DecidableEq, Repr

def AuthorizationPolicy.new (credentials : StorageCredentials) : AuthorizationPolicy :=
  { credentials := credentials }

/-- Modelled from the spec: the per-retry timeout policy, carrying its
configured default deadline. -/
structure TimeoutPolicy where
  default_timeout : Option Nat := none
  deriving DecidableEq, Repr

/-- Heterogeneous pipeline policies: the authorization policy, the timeout
policy, and opaque custom policies such as mock transports. -/
inductive Policy
  | authorization (policy : AuthorizationPolicy)
  | timeout (policy : TimeoutPolicy)
  | custom (id : Nat)
  deriving DecidableEq, Repr

/-- Model of azure_core TransportOptions: the default transport or a
custom transport policy. -/
inductive TransportOptions
  | defaultTransport
  | customPolicy (policy : Policy)
  deriving DecidableEq, Repr

def TransportOptions.new_custom_policy (p : Policy) : TransportOptions :=
  TransportOptions.customPolicy p

/-- Model of azure_core ClientOptions: the per-retry timeout configuration
and the transport. -/
structure ClientOptions where
  timeout : TimeoutPolicy := {}
  transport : TransportOptions := TransportOptions.defaultTransport
  deriving DecidableEq, Repr

def ClientOptions.default : ClientOptions := {}

def ClientOptions.new (transport : TransportOptions) : ClientOptions :=
  { transport := transport }

/-- Modelled from the spec: the pipeline is an ordered sequence of
per-call policies, then an ordered sequence of per-retry policies, then
the transport (azure_core pipeline.rs is not under src/). -/
structure Pipeline where
  per_call_policies : List Policy
  per_retry_policies : List Policy
  transport : TransportOptions
  deriving DecidableEq, Repr

/-- Modelled from the spec: Pipeline construction records the per-call and
per-retry policy lists in order and takes the transport from the options;
the crate name and version only feed telemetry. -/
def Pipeline.new (_crate_name _crate_version : Option String)
    (options : ClientOptions) (per_call_policies per_retry_policies : List Policy) :
    Pipeline :=
  { per_call_policies := per_call_policies,
    per_retry_policies := per_retry_policies,
    transport := options.transport }

/-- Embedding of new_pipeline_from_options: the per-retry list is the
timeout policy followed by the authorization policy built over the
credentials, which must stay last. -/
def new_pipeline_from_options (options : ClientOptions)
    (credentials : StorageCredentials) : Pipeline :=
  let auth_policy : Policy := Policy.authorization (AuthorizationPolicy.new credentials)
  let per_retry_policies : List Policy := [Policy.timeout options.timeout, auth_policy]
  Pipeline.new none none options [] per_retry_policies

/- ===================== Endpoint synthesis (source) ===================== -/

/-- Embedding of get_endpoint_uri: an explicit override is parsed and used
verbatim; otherwise the endpoint is synthesized from the account and the
service subdomain and parsed, a failure being reported as a DataConversion
error with the synthesized text in the message. -/
def get_endpoint_uri (url : Option String) (account : String)
    (endpoint_type : String) : Except Error Url :=
  match url with
  | some value =>
    match Url.parse value with
    | Except.ok u => Except.ok u
    | Except.error _ =>
      Except.error { kind := ErrorKind.DataConversion,
                     message := "failed to parse url: " ++ value }
  | none =>
    let synthesized := "https://" ++ account ++ "." ++ endpoint_type ++ ".core.windows.net"
    match Url.parse synthesized with
    | Except.ok u => Except.ok u
    | Except.error _ =>
      Except.error { kind := ErrorKind.DataConversion,
                     message := "failed to parse url: " ++ synthesized }

/- ===================== Shared access signature minting (source) ===================== -/

/-- Embedding of the free function shared_access_signature: only a Key
credential can mint an account SAS; every other credential kind is a
Credential-kind error. -/
def shared_access_signature (storage_credentials : StorageCredentials)
    (resource : AccountSasResource) (resource_type : AccountSasResourceType)
    (expiry : OffsetDateTime) (permissions : AccountSasPermissions) :
    Except Error AccountSharedAccessSignature :=
  match storage_credentials with
  | StorageCredentials.Key account key =>
    Except.ok (AccountSharedAccessSignature.new account key resource resource_type
      expiry permissions)
  | _ =>
    Except.error { kind := ErrorKind.Credential,
                   message := "failed shared access signature generation. SAS can be generated only from key and account clients" }

/- ===================== Request finalization (source) ===================== -/

/-- Embedding of finalize_request. The wall clock read by the source
(OffsetDateTime now_utc) is passed in as the dt argument. Caller headers
are inserted first, then content-length (the body length, or 0 with no
body), the request date in RFC-1123 form, and the fixed API version. -/
def finalize_request (dt : OffsetDateTime) (url : Url) (method : Method)
    (headers : Headers) (request_body : Option Body) : Except Error Request :=
  let time := date.to_rfc1123 dt
  let request := Request.new url method
  let request := headers.foldl (fun r kv => r.insert_header kv.1 kv.2) request
  let request :=
    match request_body with
    | some b => request.insert_header CONTENT_LENGTH (toString (Body.len b))
    | none => request.insert_header CONTENT_LENGTH "0"
  let request := request.insert_header MS_DATE time
  let request := request.insert_header VERSION AZURE_VERSION
  let request :=
    match request_body with
    | some b => request.set_body b
    | none => request.set_body EMPTY_BODY
  Except.ok request

/- ===================== Connection strings ===================== -/

/-- Modelled from the spec: the parsed form of a storage connection string
(the ConnectionString helper is an out-of-scope collaborator, not under
src/): the optional account name, account key, SAS token and per-service
endpoint overrides that new_connection_string consumes. -/
structure ConnectionString where
  account_name : Option String := none
  account_key : Option String := none
  sas : Option String := none
  blob_endpoint : Option String := none
  table_endpoint : Option String := none
  queue_endpoint : Option String := none
  file_endpoint : Option String := none
  deriving DecidableEq, Repr

/- ===================== The storage client (source) ===================== -/

/-- Embedding of the StorageClient record. -/
structure StorageClient where
  storage_credentials : StorageCredentials
  blob_storage_url : Url
  table_storage_url : Url
  queue_storage_url : Url
  queue_storage_secondary_url : Url
  filesystem_url : Url
  account : String
  pipeline : Pipeline
  deriving DecidableEq, Repr

/-- A placeholder client used only as the default of getD. -/
def defaultStorageClient : StorageClient :=
  { storage_credentials := StorageCredentials.Anonymous,
    blob_storage_url := defaultUrl, table_storage_url := defaultUrl,
    queue_storage_url := defaultUrl, queue_storage_secondary_url := defaultUrl,
    filesystem_url := defaultUrl, account := "",
    pipeline := new_pipeline_from_options ClientOptions.default StorageCredentials.Anonymous }

def EMULATOR_ACCOUNT : String := "devstoreaccount1"

def EMULATOR_ACCOUNT_KEY : String :=
  "Eby8vdM02xNOcqFlqUwJPLlmEtlCDXJ1OUzFT50uSRZ6IFsuFq2UVErCz4I6tq/K1SZFPTOtr/KBHBeksoGMGw=="

/-- Embedding of new_access_key. The source unwraps each endpoint result
and panics on failure; a panic is modelled as none. -/
def StorageClient.new_access_key (account key : String) : Option StorageClient :=
  let storage_credentials := StorageCredentials.access_key account key
  let pipeline := new_pipeline_from_options ClientOptions.default storage_credentials
  match (get_endpoint_uri none account "blob").toOption,
        (get_endpoint_uri none account "table").toOption,
        (get_endpoint_uri none account "queue").toOption,
        (get_endpoint_uri none (account ++ "-secondary") "queue").toOption,
        (get_endpoint_uri none account "dfs").toOption with
  | some blob_storage_url, some table_storage_url, some queue_storage_url,
      some queue_storage_secondary_url, some filesystem_url =>
    some { blob_storage_url := blob_storage_url, table_storage_url := table_storage_url,
           queue_storage_url := queue_storage_url,
           queue_storage_secondary_url := queue_storage_secondary_url,
           filesystem_url := filesystem_url,
           storage_credentials := storage_credentials, account := account,
           pipeline := pipeline }
  | _, _, _, _, _ => none

/-- Embedding of new_emulator_with_account: each endpoint is the display
form of the given base URL with the account appended, reparsed (and
unwrapped, modelled as none on failure); the queue-secondary URL is set to
the very same URL as the queue primary. -/
def StorageClient.new_emulator_with_account (blob_storage_url table_storage_url
    queue_storage_url filesystem_url : Url) (account key : String) :
    Option StorageClient :=
  let storage_credentials := StorageCredentials.access_key account key
  let pipeline := new_pipeline_from_options ClientOptions.default storage_credentials
  match (Url.parse (blob_storage_url.serialize ++ account)).toOption,
        (Url.parse (table_storage_url.serialize ++ account)).toOption,
        (Url.parse (queue_storage_url.serialize ++ account)).toOption,
        (Url.parse (filesystem_url.serialize ++ account)).toOption with
  | some blobU, some tableU, some queueU, some fsU =>
    some { blob_storage_url := blobU, table_storage_url := tableU,
           queue_storage_url := queueU, queue_storage_secondary_url := queueU,
           filesystem_url := fsU, storage_credentials := storage_credentials,
           account := account, pipeline := pipeline }
  | _, _, _, _ => none

/-- Embedding of new_emulator: the customized-emulator constructor with
the well-known emulator account and key. -/
def StorageClient.new_emulator (blob_storage_url table_storage_url
    queue_storage_url filesystem_url : Url) : Option StorageClient :=
  StorageClient.new_emulator_with_account blob_storage_url table_storage_url
    queue_storage_url filesystem_url EMULATOR_ACCOUNT EMULATOR_ACCOUNT_KEY

/-- Embedding of new_sas_token, which returns a typed result. -/
def StorageClient.new_sas_token (account : String) (sas_token : String) :
    Except Error StorageClient :=
  match StorageCredentials.sas_token sas_token with
  | Except.error e => Except.error e
  | Except.ok storage_credentials =>
    let pipeline := new_pipeline_from_options ClientOptions.default storage_credentials
    match get_endpoint_uri none account "blob" with
    | Except.error e => Except.error e
    | Except.ok blobU =>
    match get_endpoint_uri none account "table" with
    | Except.error e => Except.error e
    | Except.ok tableU =>
    match get_endpoint_uri none account "queue" with
    | Except.error e => Except.error e
    | Except.ok queueU =>
    match get_endpoint_uri none (account ++ "-secondary") "queue" with
    | Except.error e => Except.error e
    | Except.ok queueSecU =>
    match get_endpoint_uri none account "dfs" with
    | Except.error e => Except.error e
    | Except.ok fsU =>
      Except.ok { blob_storage_url := blobU, table_storage_url := tableU,
                  queue_storage_url := queueU, queue_storage_secondary_url := queueSecU,
                  filesystem_url := fsU, storage_credentials := storage_credentials,
                  account := account, pipeline := pipeline }

/-- Embedding of new_bearer_token (panicking constructor, none on panic). -/
def StorageClient.new_bearer_token (account bearer_token : String) :
    Option StorageClient :=
  let storage_credentials := StorageCredentials.bearer_token bearer_token
  let pipeline := new_pipeline_from_options ClientOptions.default storage_credentials
  match (get_endpoint_uri none account "blob").toOption,
        (get_endpoint_uri none account "table").toOption,
        (get_endpoint_uri none account "queue").toOption,
        (get_endpoint_uri none (account ++ "-secondary") "queue").toOption,
        (get_endpoint_uri none account "dfs").toOption with
  | some blobU, some tableU, some queueU, some queueSecU, some fsU =>
    some { blob_storage_url := blobU, table_storage_url := tableU,
           queue_storage_url := queueU, queue_storage_secondary_url := queueSecU,
           filesystem_url := fsU, storage_credentials := storage_credentials,
           account := account, pipeline := pipeline }
  | _, _, _, _, _ => none

/-- Embedding of new_token_credential (panicking constructor). -/
def StorageClient.new_token_credential (account : String)
    (token_credential : Unit) : Option StorageClient :=
  let storage_credentials := StorageCredentials.token_credential token_credential
  let pipeline := new_pipeline_from_options ClientOptions.default storage_credentials
  match (get_endpoint_uri none account "blob").toOption,
        (get_endpoint_uri none account "table").toOption,
        (get_endpoint_uri none account "queue").toOption,
        (get_endpoint_uri none (account ++ "-secondary") "queue").toOption,
        (get_endpoint_uri none account "dfs").toOption with
  | some blobU, some tableU, some queueU, some queueSecU, some fsU =>
    some { blob_storage_url := blobU, table_storage_url := tableU,
           queue_storage_url := queueU, queue_storage_secondary_url := queueSecU,
           filesystem_url := fsU, storage_credentials := storage_credentials,
           account := account, pipeline := pipeline }
  | _, _, _, _, _ => none

/-- Embedding of new_anonymous (panicking constructor). -/
def StorageClient.new_anonymous (account : String) : Option StorageClient :=
  let storage_credentials := StorageCredentials.anonymous
  let pipeline := new_pipeline_from_options ClientOptions.default storage_credentials
  match (get_endpoint_uri none account "blob").toOption,
        (get_endpoint_uri none account "table").toOption,
        (get_endpoint_uri none account "queue").toOption,
        (get_endpoint_uri none (account ++ "-secondary") "queue").toOption,
        (get_endpoint_uri none account "dfs").toOption with
  | some blobU, some tableU, some queueU, some queueSecU, some fsU =>
    some { blob_storage_url := blobU, table_storage_url := tableU,
           queue_storage_url := queueU, queue_storage_secondary_url := queueSecU,
           filesystem_url := fsU, storage_credentials := storage_credentials,
           account := account, pipeline := pipeline }
  | _, _, _, _, _ => none

/-- Embedding of new_mock (panicking constructor with a custom transport
policy). -/
def StorageClient.new_mock (account : String)
    (storage_credentials : StorageCredentials) (transport_policy : Policy) :
    Option StorageClient :=
  let options := ClientOptions.new (TransportOptions.new_custom_policy transport_policy)
  let pipeline := new_pipeline_from_options options storage_credentials
  match (get_endpoint_uri none account "blob").toOption,
        (get_endpoint_uri none account "table").toOption,
        (get_endpoint_uri none account "queue").toOption,
        (get_endpoint_uri none (account ++ "-secondary") "queue").toOption,
        (get_endpoint_uri none account "dfs").toOption with
  | some blobU, some tableU, some queueU, some queueSecU, some fsU =>
    some { blob_storage_url := blobU, table_storage_url := tableU,
           queue_storage_url := queueU, queue_storage_secondary_url := queueSecU,
           filesystem_url := fsU, storage_credentials := storage_credentials,
           account := account, pipeline := pipeline }
  | _, _, _, _, _ => none

/-- Embedding of new_connection_string over the parsed connection string,
with the source match-arm order: account plus key plus SAS prefers the
SAS (warning only); account plus SAS uses the SAS; account plus key uses
the key; anything else is an Other-kind error. -/
def StorageClient.new_connection_string (cs : ConnectionString) :
    Except Error StorageClient :=
  match cs.account_name, cs.account_key, cs.sas with
  | some account, some _key, some sas_token =>
    (match StorageCredentials.sas_token sas_token with
     | Except.error e => Except.error e
     | Except.ok storage_credentials =>
       let pipeline := new_pipeline_from_options ClientOptions.default storage_credentials
       match get_endpoint_uri cs.blob_endpoint account "blob" with
       | Except.error e => Except.error e
       | Except.ok blobU =>
       match get_endpoint_uri cs.table_endpoint account "table" with
       | Except.error e => Except.error e
       | Except.ok tableU =>
       match get_endpoint_uri cs.queue_endpoint account "queue" with
       | Except.error e => Except.error e
       | Except.ok queueU =>
       match get_endpoint_uri cs.queue_endpoint (account ++ "-secondary") "queue" with
       | Except.error e => Except.error e
       | Except.ok queueSecU =>
       match get_endpoint_uri cs.file_endpoint account "dfs" with
       | Except.error e => Except.error e
       | Except.ok fsU =>
         Except.ok { storage_credentials := storage_credentials,
                     blob_storage_url := blobU, table_storage_url := tableU,
                     queue_storage_url := queueU,
                     queue_storage_secondary_url := queueSecU,
                     filesystem_url := fsU, account := account, pipeline := pipeline })
  | some account, _, some sas_token =>
    (match StorageCredentials.sas_token sas_token with
     | Except.error e => Except.error e
     | Except.ok storage_credentials =>
       let pipeline := new_pipeline_from_options ClientOptions.default storage_credentials
       match get_endpoint_uri cs.blob_endpoint account "blob" with
       | Except.error e => Except.error e
       | Except.ok blobU =>
       match get_endpoint_uri cs.table_endpoint account "table" with
       | Except.error e => Except.error e
       | Except.ok tableU =>
       match get_endpoint_uri cs.queue_endpoint account "queue" with
       | Except.error e => Except.error e
       | Except.ok queueU =>
       match get_endpoint_uri cs.queue_endpoint (account ++ "-secondary") "queue" with
       | Except.error e => Except.error e
       | Except.ok queueSecU =>
       match get_endpoint_uri cs.file_endpoint account "dfs" with
       | Except.error e => Except.error e
       | Except.ok fsU =>
         Except.ok { storage_credentials := storage_credentials,
                     blob_storage_url := blobU, table_storage_url := tableU,
                     queue_storage_url := queueU,
                     queue_storage_secondary_url := queueSecU,
                     filesystem_url := fsU, account := account, pipeline := pipeline })
  | some account, some key, none =>
    (let storage_credentials := StorageCredentials.access_key account key
     let pipeline := new_pipeline_from_options ClientOptions.default storage_credentials
     match get_endpoint_uri cs.blob_endpoint account "blob" with
     | Except.error e => Except.error e
     | Except.ok blobU =>
     match get_endpoint_uri cs.table_endpoint account "table" with
     | Except.error e => Except.error e
     | Except.ok tableU =>
     match get_endpoint_uri cs.queue_endpoint account "queue" with
     | Except.error e => Except.error e
     | Except.ok queueU =>
     match get_endpoint_uri cs.queue_endpoint (account ++ "-secondary") "queue" with
     | Except.error e => Except.error e
     | Except.ok queueSecU =>
     match get_endpoint_uri cs.file_endpoint account "dfs" with
     | Except.error e => Except.error e
     | Except.ok fsU =>
       Except.ok { storage_credentials := storage_credentials,
                   blob_storage_url := blobU, table_storage_url := tableU,
                   queue_storage_url := queueU,
                   queue_storage_secondary_url := queueSecU,
                   filesystem_url := fsU, account := account, pipeline := pipeline })
  | _, _, _ =>
    Except.error { kind := ErrorKind.Other,
                   message := "Could not create a storage client from the provided connection string. Please validate that you have specified the account name and means of authentication (key, SAS, etc.)." }

/-- Model of one url crate PathSegmentsMut push in the path-segment-setter
context: a dot or dot-dot segment is skipped outright; otherwise a
separator slash precedes the new segment text except when the existing
path is the bare root slash (a single empty segment), where the segment
text lands directly after that slash, replacing the empty segment. -/
def pathSegmentsPush (old : List String) (seg : String) : List String :=
  if seg = "." || seg = ".." then old
  else
    match old with
    | [""] => [seg]
    | _ => old ++ [seg]

/-- Model of url crate PathSegmentsMut extend: push each given segment in
order. -/
def pathSegmentsExtend (old : List String) (new_segments : List String) : List String :=
  new_segments.foldl pathSegmentsPush old

/-- Embedding of the static url_with_segments: a base URL that cannot be a
base (non-hierarchical path) is rejected with a DataConversion error;
otherwise the new segments are pushed onto the path in order under the
url crate push rules. -/
def StorageClient.url_with_segments (url : Url) (new_segments : List String) :
    Except Error Url :=
  let original_url := url
  match url.path with
  | UrlPath.nonHierarchical _ =>
    Except.error { kind := ErrorKind.DataConversion,
                   message := "failed to parse url path segments from " ++ original_url.serialize }
  | UrlPath.segments segs =>
    Except.ok { url with path := UrlPath.segments (pathSegmentsExtend segs new_segments) }

/- ===================== Concrete URLs used by witnesses ===================== -/

def fooBlobUrl : Url := (Url.parse "https://foo.blob.core.windows.net").toOption.getD defaultUrl

def overrideUrlEx : Url := (Url.parse "http://override.example:8080").toOption.getD defaultUrl

def mailtoUrl : Url := (Url.parse "mailto:someone").toOption.getD defaultUrl

def exampleUrl : Url := (Url.parse "https://example.com").toOption.getD defaultUrl

def exampleExtendedUrl : Url :=
  (StorageClient.url_with_segments exampleUrl ["a", "b"]).toOption.getD defaultUrl

/- ===================== Claim theorems ===================== -/

/-- C1: shared_access_signature succeeds exactly on the Key variant, and
then returns the account SAS built from that account, key and the given
resource, resource type, expiry and permissions; every other credential
kind yields a Credential-kind error, and no other outcome is possible. -/
theorem shared_access_signature_key_only (storage_credentials : StorageCredentials)
    (resource : AccountSasResource) (resource_type : AccountSasResourceType)
    (expiry : OffsetDateTime) (permissions : AccountSasPermissions) :
    (∀ account key, storage_credentials = StorageCredentials.Key account key →
      shared_access_signature storage_credentials resource resource_type expiry permissions =
        Except.ok (AccountSharedAccessSignature.new account key resource resource_type
          expiry permissions)) ∧
    (storage_credentials.isKey = false →
      exceptErrKind (shared_access_signature storage_credentials resource resource_type
        expiry permissions) = some ErrorKind.Credential) ∧
    (exceptIsOk (shared_access_signature storage_credentials resource resource_type
      expiry permissions) = storage_credentials.isKey) := by
  refine ⟨?_, ?_, ?_⟩
  · intro account key h
    subst h
    rfl
  · intro h
    cases storage_credentials with
    | Key a k => simp [StorageCredentials.isKey] at h
    | SASToken p => rfl
    | BearerToken t => rfl
    | TokenCredential u => rfl
    | Anonymous => rfl
  · cases storage_credentials <;> rfl

/-- Witness for C1: a Key credential mints the SAS with its fields, and an
Anonymous credential gets a Credential-kind error. -/
theorem shared_access_signature_key_only_witness :
    shared_access_signature (StorageCredentials.Key "acct" "base64key")
        AccountSasResource.blob AccountSasResourceType.container
        { unix_seconds := 1760227200 } { read := true } =
      Except.ok (AccountSharedAccessSignature.new "acct" "base64key"
        AccountSasResource.blob AccountSasResourceType.container
        { unix_seconds := 1760227200 } { read := true }) ∧
    exceptErrKind (shared_access_signature StorageCredentials.Anonymous
        AccountSasResource.blob AccountSasResourceType.container
        { unix_seconds := 1760227200 } { read := true }) =
      some ErrorKind.Credential :=
  ⟨(shared_access_signature_key_only (StorageCredentials.Key "acct" "base64key")
      AccountSasResource.blob AccountSasResourceType.container
      { unix_seconds := 1760227200 } { read := true }).1 "acct" "base64key" rfl,
   (shared_access_signature_key_only StorageCredentials.Anonymous
      AccountSasResource.blob AccountSasResourceType.container
      { unix_seconds := 1760227200 } { read := true }).2.1 rfl⟩

/-- C2: for every ClientOptions and credential, the pipeline built by
new_pipeline_from_options carries the authorization policy over exactly
those credentials as the last element of its per-retry policy list. -/
theorem authorization_policy_last_in_per_retry (options : ClientOptions)
    (credentials : StorageCredentials) :
    (new_pipeline_from_options options credentials).per_retry_policies.getLast? =
      some (Policy.authorization (AuthorizationPolicy.new credentials)) := rfl

/-- C4 counterexample: for the string that itself starts with the query
delimiter, parsing it with a second delimiter prepended gives a different
ordered pair list than parsing it alone, refuting the claim as stated for
every string. -/
theorem sas_token_double_delimiter_counterexample :
    get_sas_token_parms ("?" ++ "?a=1") = Except.ok [("?a", "1")] ∧
    get_sas_token_parms "?a=1" = Except.ok [("a", "1")] ∧
    get_sas_token_parms ("?" ++ "?a=1") ≠ get_sas_token_parms "?a=1" := by
  refine ⟨by decide, by decide, by decide⟩

/-- C4 amended: for every string that does not already start with the
query delimiter, parsing it with and without a prepended delimiter yields
the same outcome up to the error message, which quotes the original
argument; in particular the same ordered pair list on success. -/
theorem sas_token_leading_delimiter_amended (s : String)
    (h : startsWithQuestionMark s = false) :
    (get_sas_token_parms ("?" ++ s)).toOption = (get_sas_token_parms s).toOption := by
  have hq : startsWithQuestionMark ("?" ++ s) = true := by
    cases s with
    | mk data => rfl
  simp only [get_sas_token_parms, hq, h, Bool.false_eq_true, if_false, if_true]
  cases Url.parseWithBase sasBaseUrl ("?" ++ s) <;> rfl

/-- Witness for the amended C4 at the spec example string. -/
theorem sas_token_leading_delimiter_amended_witness :
    startsWithQuestionMark "a=1&b=2" = false ∧
    (get_sas_token_parms ("?" ++ "a=1&b=2")).toOption =
      (get_sas_token_parms "a=1&b=2").toOption ∧
    get_sas_token_parms "a=1&b=2" = Except.ok [("a", "1"), ("b", "2")] :=
  ⟨rfl, sas_token_leading_delimiter_amended "a=1&b=2" rfl, by decide⟩

/-- C6: with no override, get_endpoint_uri returns whatever parsing the
synthesized https account-dot-service endpoint string returns, and fails
with a DataConversion error when that string does not parse; with an
override it returns the override parsed verbatim, failing the same way. -/
theorem get_endpoint_uri_override_and_synthesis (account endpoint_type : String) :
    ((∀ u, Url.parse ("https://" ++ account ++ "." ++ endpoint_type ++ ".core.windows.net") =
          Except.ok u → get_endpoint_uri none account endpoint_type = Except.ok u) ∧
      (exceptIsOk (Url.parse ("https://" ++ account ++ "." ++ endpoint_type ++ ".core.windows.net")) =
          false →
        exceptErrKind (get_endpoint_uri none account endpoint_type) =
          some ErrorKind.DataConversion)) ∧
    (∀ value,
      (∀ u, Url.parse value = Except.ok u →
        get_endpoint_uri (some value) account endpoint_type = Except.ok u) ∧
      (exceptIsOk (Url.parse value) = false →
        exceptErrKind (get_endpoint_uri (some value) account endpoint_type) =
          some ErrorKind.DataConversion)) := by
  refine ⟨⟨?_, ?_⟩, ?_⟩
  · intro u hu
    simp [get_endpoint_uri, hu]
  · intro h
    cases hp : Url.parse ("https://" ++ account ++ "." ++ endpoint_type ++ ".core.windows.net") with
    | ok u => rw [hp] at h; simp [exceptIsOk] at h
    | error e => simp [get_endpoint_uri, hp, exceptErrKind]
  · intro value
    refine ⟨?_, ?_⟩
    · intro u hu
      simp [get_endpoint_uri, hu]
    · intro h
      cases hp : Url.parse value with
      | ok u => rw [hp] at h; simp [exceptIsOk] at h
      | error e => simp [get_endpoint_uri, hp, exceptErrKind]

/-- Witness for C6: synthesis for account foo and service blob, a verbatim
override, and a failing override string. -/
theorem get_endpoint_uri_override_and_synthesis_witness :
    get_endpoint_uri none "foo" "blob" = Except.ok fooBlobUrl ∧
    get_endpoint_uri (some "http://override.example:8080") "foo" "blob" =
      Except.ok overrideUrlEx ∧
    exceptErrKind (get_endpoint_uri (some "not a url") "foo" "blob") =
      some ErrorKind.DataConversion :=
  ⟨(get_endpoint_uri_override_and_synthesis "foo" "blob").1.1 fooBlobUrl (by decide),
   ((get_endpoint_uri_override_and_synthesis "foo" "blob").2 "http://override.example:8080").1
     overrideUrlEx (by decide),
   ((get_endpoint_uri_override_and_synthesis "foo" "blob").2 "not a url").2 (by decide)⟩

/-- C8: url_with_segments rejects a base URL that cannot be a base with a
DataConversion error and succeeds on every base URL whose path is
hierarchical. -/
theorem url_with_segments_rejects_non_hierarchical (url : Url) (new_segments : List String) :
    (url.cannot_be_a_base = true →
      exceptErrKind (StorageClient.url_with_segments url new_segments) =
        some ErrorKind.DataConversion) ∧
    (url.cannot_be_a_base = false →
      exceptIsOk (StorageClient.url_with_segments url new_segments) = true) := by
  obtain ⟨scheme, host, port, path, query, fragment⟩ := url
  cases path with
  | nonHierarchical s =>
    exact ⟨fun _ => rfl, fun h => by simp [Url.cannot_be_a_base] at h⟩
  | segments l =>
    exact ⟨fun h => by simp [Url.cannot_be_a_base] at h, fun _ => rfl⟩

/-- Witness for C8: a mailto URL is rejected, an https URL is accepted. -/
theorem url_with_segments_rejects_non_hierarchical_witness :
    mailtoUrl.cannot_be_a_base = true ∧
    exceptErrKind (StorageClient.url_with_segments mailtoUrl ["a"]) =
      some ErrorKind.DataConversion ∧
    exampleUrl.cannot_be_a_base = false ∧
    exceptIsOk (StorageClient.url_with_segments exampleUrl ["a"]) = true :=
  ⟨by decide,
   (url_with_segments_rejects_non_hierarchical mailtoUrl ["a"]).1 (by decide),
   by decide,
   (url_with_segments_rejects_non_hierarchical exampleUrl ["a"]).2 (by decide)⟩

/-- C10 counterexample: extending the root-path base url by the segments
a and b yields exactly those two path segments, not the plain append of
the old segment list (which would be a double slash), and a lone dot
segment is skipped outright, so the returned path is not in general the
input segment list with the given segments appended in order. -/
theorem url_with_segments_root_append_counterexample :
    exampleUrl.path = UrlPath.segments [""] ∧
    (StorageClient.url_with_segments exampleUrl ["a", "b"]).toOption.map Url.path =
      some (UrlPath.segments ["a", "b"]) ∧
    some (UrlPath.segments ["a", "b"]) ≠
      some (UrlPath.segments ([""] ++ ["a", "b"])) ∧
    (StorageClient.url_with_segments exampleUrl ["."]).toOption.map Url.path =
      some (UrlPath.segments [""]) := by
  refine ⟨by decide, by decide, by decide, by decide⟩

/-- C10 amended: on success, url_with_segments changes only the path:
scheme, host, port, query and fragment are unchanged, and the new path
segments are the old ones extended in order by the given segments under
the url crate push rules (dot and dot-dot segments skipped; the single
empty segment of a bare root path replaced by the first pushed segment). -/
theorem url_with_segments_frame (url : Url) (new_segments : List String) (u : Url)
    (h : StorageClient.url_with_segments url new_segments = Except.ok u) :
    u.scheme = url.scheme ∧ u.host = url.host ∧ u.port = url.port ∧
    u.query = url.query ∧ u.fragment = url.fragment ∧
    ∀ l, url.path = UrlPath.segments l →
      u.path = UrlPath.segments (pathSegmentsExtend l new_segments) := by
  obtain ⟨scheme, host, port, path, query, fragment⟩ := url
  cases path with
  | nonHierarchical s =>
    exact absurd h (by simp [StorageClient.url_with_segments])
  | segments l =>
    simp only [StorageClient.url_with_segments, Except.ok.injEq] at h
    subst h
    refine ⟨rfl, rfl, rfl, rfl, rfl, ?_⟩
    intro l2 hl
    cases hl
    rfl

/-- Witness for the amended C10 at a concrete https base URL and two
segments. -/
theorem url_with_segments_frame_witness :
    exampleExtendedUrl.host = exampleUrl.host ∧
    exampleExtendedUrl.path = UrlPath.segments (pathSegmentsExtend [""] ["a", "b"]) :=
  ⟨(url_with_segments_frame exampleUrl ["a", "b"] exampleExtendedUrl (by decide)).2.1,
   (url_with_segments_frame exampleUrl ["a", "b"] exampleExtendedUrl (by decide)).2.2.2.2.2
     [""] (by decide)⟩

/- ===================== C9: constructor totality ===================== -/

/-- All five endpoint syntheses a panicking constructor unwraps succeed
for the given account. -/
def endpointSynthesisOk (account : String) : Bool :=
  exceptIsOk (get_endpoint_uri none account "blob") &&
  exceptIsOk (get_endpoint_uri none account "table") &&
  exceptIsOk (get_endpoint_uri none account "queue") &&
  exceptIsOk (get_endpoint_uri none (account ++ "-secondary") "queue") &&
  exceptIsOk (get_endpoint_uri none account "dfs") &&
  true

/-- C9: the constructors that unwrap endpoint results are total exactly
when every endpoint synthesis for the account (and its secondary name)
succeeds; the modelled panic (none) occurs otherwise, and a concrete
account with a space exhibits it. -/
theorem constructors_total_iff_endpoint_synthesis (account key bearer : String)
    (cred : StorageCredentials) (tok : Unit) (p : Policy) :
    (StorageClient.new_access_key account key).isSome = endpointSynthesisOk account ∧
    (StorageClient.new_bearer_token account bearer).isSome = endpointSynthesisOk account ∧
    (StorageClient.new_token_credential account tok).isSome = endpointSynthesisOk account ∧
    (StorageClient.new_anonymous account).isSome = endpointSynthesisOk account ∧
    (StorageClient.new_mock account cred p).isSome = endpointSynthesisOk account ∧
    StorageClient.new_access_key "bad account" "key" = none := by
  refine ⟨?_, ?_, ?_, ?_, ?_, by decide⟩
  · unfold StorageClient.new_access_key endpointSynthesisOk
    cases get_endpoint_uri none account "blob" <;>
      cases get_endpoint_uri none account "table" <;>
        cases get_endpoint_uri none account "queue" <;>
          cases get_endpoint_uri none (account ++ "-secondary") "queue" <;>
            cases get_endpoint_uri none account "dfs" <;> rfl
  · unfold StorageClient.new_bearer_token endpointSynthesisOk
    cases get_endpoint_uri none account "blob" <;>
      cases get_endpoint_uri none account "table" <;>
        cases get_endpoint_uri none account "queue" <;>
          cases get_endpoint_uri none (account ++ "-secondary") "queue" <;>
            cases get_endpoint_uri none account "dfs" <;> rfl
  · unfold StorageClient.new_token_credential endpointSynthesisOk
    cases get_endpoint_uri none account "blob" <;>
      cases get_endpoint_uri none account "table" <;>
        cases get_endpoint_uri none account "queue" <;>
          cases get_endpoint_uri none (account ++ "-secondary") "queue" <;>
            cases get_endpoint_uri none account "dfs" <;> rfl
  · unfold StorageClient.new_anonymous endpointSynthesisOk
    cases get_endpoint_uri none account "blob" <;>
      cases get_endpoint_uri none account "table" <;>
        cases get_endpoint_uri none account "queue" <;>
          cases get_endpoint_uri none (account ++ "-secondary") "queue" <;>
            cases get_endpoint_uri none account "dfs" <;> rfl
  · unfold StorageClient.new_mock endpointSynthesisOk
    cases get_endpoint_uri none account "blob" <;>
      cases get_endpoint_uri none account "table" <;>
        cases get_endpoint_uri none account "queue" <;>
          cases get_endpoint_uri none (account ++ "-secondary") "queue" <;>
            cases get_endpoint_uri none account "dfs" <;> rfl

/- ===================== C3: queue secondary URL ===================== -/

def emulatorBlobBase : Url := (Url.parse "http://127.0.0.1:10000").toOption.getD defaultUrl

def emulatorTableBase : Url := (Url.parse "http://127.0.0.1:10002").toOption.getD defaultUrl

def emulatorQueueBase : Url := (Url.parse "http://127.0.0.1:10001").toOption.getD defaultUrl

def emulatorFsBase : Url := (Url.parse "http://127.0.0.1:10004").toOption.getD defaultUrl

/-- C3 counterexample: a client built by new_emulator_with_account (named
by the claim) has a queue-secondary URL equal to the queue primary URL,
not the URL synthesized for the account name with the secondary suffix. -/
theorem queue_secondary_emulator_counterexample :
    (StorageClient.new_emulator_with_account emulatorBlobBase emulatorTableBase
        emulatorQueueBase emulatorFsBase EMULATOR_ACCOUNT EMULATOR_ACCOUNT_KEY).map
      (fun c => c.queue_storage_secondary_url) ≠
      (get_endpoint_uri none (EMULATOR_ACCOUNT ++ "-secondary") "queue").toOption ∧
    (StorageClient.new_emulator_with_account emulatorBlobBase emulatorTableBase
        emulatorQueueBase emulatorFsBase EMULATOR_ACCOUNT EMULATOR_ACCOUNT_KEY).map
      (fun c => c.queue_storage_secondary_url == c.queue_storage_url) = some true := by
  refine ⟨by decide, by decide⟩

/-- C3 amended: clients built by new_access_key, and by
new_connection_string when no queue endpoint override is present, have the
queue-secondary URL synthesized for the account name with the fixed
secondary suffix appended; new_emulator_with_account instead sets the
queue-secondary URL equal to its queue primary URL. -/
theorem queue_secondary_suffix_amended :
    (∀ account key c, StorageClient.new_access_key account key = some c →
      get_endpoint_uri none (account ++ "-secondary") "queue" =
        Except.ok c.queue_storage_secondary_url) ∧
    (∀ cs account c, cs.account_name = some account →
      cs.queue_endpoint = none →
      StorageClient.new_connection_string cs = Except.ok c →
      get_endpoint_uri none (account ++ "-secondary") "queue" =
        Except.ok c.queue_storage_secondary_url) ∧
    (∀ blob table queue fs account key c,
      StorageClient.new_emulator_with_account blob table queue fs account key = some c →
      c.queue_storage_secondary_url = c.queue_storage_url) := by
  refine ⟨?_, ?_, ?_⟩
  · intro account key c h
    unfold StorageClient.new_access_key at h
    cases h1 : get_endpoint_uri none account "blob" with
    | error e => rw [h1] at h; simp [Except.toOption] at h
    | ok u1 =>
    cases h2 : get_endpoint_uri none account "table" with
    | error e => rw [h1, h2] at h; simp [Except.toOption] at h
    | ok u2 =>
    cases h3 : get_endpoint_uri none account "queue" with
    | error e => rw [h1, h2, h3] at h; simp [Except.toOption] at h
    | ok u3 =>
    cases h4 : get_endpoint_uri none (account ++ "-secondary") "queue" with
    | error e => rw [h1, h2, h3, h4] at h; simp [Except.toOption] at h
    | ok u4 =>
    cases h5 : get_endpoint_uri none account "dfs" with
    | error e => rw [h1, h2, h3, h4, h5] at h; simp [Except.toOption] at h
    | ok u5 =>
      rw [h1, h2, h3, h4, h5] at h
      simp only [Except.toOption, Option.some.injEq] at h
      rw [← h]
  · intro cs account c ha hq hc
    obtain ⟨an, ak, sas, be, te, qe, fe⟩ := cs
    simp only at ha hq
    subst ha
    subst hq
    unfold StorageClient.new_connection_string at hc
    cases ak with
    | some key =>
      cases sas with
      | some sas_token =>
        dsimp only at hc
        cases hs : StorageCredentials.sas_token sas_token with
        | error e => rw [hs] at hc; exact absurd hc (by simp)
        | ok scred =>
        rw [hs] at hc
        cases h1 : get_endpoint_uri be account "blob" with
        | error e => rw [h1] at hc; exact absurd hc (by simp)
        | ok u1 =>
        rw [h1] at hc
        cases h2 : get_endpoint_uri te account "table" with
        | error e => rw [h2] at hc; exact absurd hc (by simp)
        | ok u2 =>
        rw [h2] at hc
        cases h3 : get_endpoint_uri none account "queue" with
        | error e => rw [h3] at hc; exact absurd hc (by simp)
        | ok u3 =>
        rw [h3] at hc
        cases h4 : get_endpoint_uri none (account ++ "-secondary") "queue" with
        | error e => rw [h4] at hc; exact absurd hc (by simp)
        | ok u4 =>
        rw [h4] at hc
        cases h5 : get_endpoint_uri fe account "dfs" with
        | error e => rw [h5] at hc; exact absurd hc (by simp)
        | ok u5 =>
        rw [h5] at hc
        simp only [Except.ok.injEq] at hc
        rw [← hc]
      | none =>
        dsimp only at hc
        cases h1 : get_endpoint_uri be account "blob" with
        | error e => rw [h1] at hc; exact absurd hc (by simp)
        | ok u1 =>
        rw [h1] at hc
        cases h2 : get_endpoint_uri te account "table" with
        | error e => rw [h2] at hc; exact absurd hc (by simp)
        | ok u2 =>
        rw [h2] at hc
        cases h3 : get_endpoint_uri none account "queue" with
        | error e => rw [h3] at hc; exact absurd hc (by simp)
        | ok u3 =>
        rw [h3] at hc
        cases h4 : get_endpoint_uri none (account ++ "-secondary") "queue" with
        | error e => rw [h4] at hc; exact absurd hc (by simp)
        | ok u4 =>
        rw [h4] at hc
        cases h5 : get_endpoint_uri fe account "dfs" with
        | error e => rw [h5] at hc; exact absurd hc (by simp)
        | ok u5 =>
        rw [h5] at hc
        simp only [Except.ok.injEq] at hc
        rw [← hc]
    | none =>
      cases sas with
      | some sas_token =>
        dsimp only at hc
        cases hs : StorageCredentials.sas_token sas_token with
        | error e => rw [hs] at hc; exact absurd hc (by simp)
        | ok scred =>
        rw [hs] at hc
        cases h1 : get_endpoint_uri be account "blob" with
        | error e => rw [h1] at hc; exact absurd hc (by simp)
        | ok u1 =>
        rw [h1] at hc
        cases h2 : get_endpoint_uri te account "table" with
        | error e => rw [h2] at hc; exact absurd hc (by simp)
        | ok u2 =>
        rw [h2] at hc
        cases h3 : get_endpoint_uri none account "queue" with
        | error e => rw [h3] at hc; exact absurd hc (by simp)
        | ok u3 =>
        rw [h3] at hc
        cases h4 : get_endpoint_uri none (account ++ "-secondary") "queue" with
        | error e => rw [h4] at hc; exact absurd hc (by simp)
        | ok u4 =>
        rw [h4] at hc
        cases h5 : get_endpoint_uri fe account "dfs" with
        | error e => rw [h5] at hc; exact absurd hc (by simp)
        | ok u5 =>
        rw [h5] at hc
        simp only [Except.ok.injEq] at hc
        rw [← hc]
      | none =>
        dsimp only at hc
        exact absurd hc (by simp)
  · intro blob table queue fs account key c h
    unfold StorageClient.new_emulator_with_account at h
    cases h1 : Url.parse (blob.serialize ++ account) with
    | error e => rw [h1] at h; simp [Except.toOption] at h
    | ok u1 =>
    cases h2 : Url.parse (table.serialize ++ account) with
    | error e => rw [h1, h2] at h; simp [Except.toOption] at h
    | ok u2 =>
    cases h3 : Url.parse (queue.serialize ++ account) with
    | error e => rw [h1, h2, h3] at h; simp [Except.toOption] at h
    | ok u3 =>
    cases h4 : Url.parse (fs.serialize ++ account) with
    | error e => rw [h1, h2, h3, h4] at h; simp [Except.toOption] at h
    | ok u4 =>
      rw [h1, h2, h3, h4] at h
      simp only [Except.toOption, Option.some.injEq] at h
      rw [← h]

/-- Client built by new_access_key for the account foo, used by the
amended C3 witness. -/
def fooClient : StorageClient :=
  (StorageClient.new_access_key "foo" "key").getD defaultStorageClient

/-- Witness for the amended C3 at the account foo. -/
theorem queue_secondary_suffix_amended_witness :
    StorageClient.new_access_key "foo" "key" = some fooClient ∧
    get_endpoint_uri none ("foo" ++ "-secondary") "queue" =
      Except.ok fooClient.queue_storage_secondary_url :=
  ⟨by decide, queue_secondary_suffix_amended.1 "foo" "key" fooClient (by decide)⟩

/- ===================== C5: connection string prefers SAS ===================== -/

/-- C5: when a parsed connection string carries an account name together
with both an account key and a SAS token, a successfully built client
holds exactly the credential parsed from the SAS token, which is the
SASToken variant and never the Key variant. -/
theorem connection_string_prefers_sas (cs : ConnectionString)
    (account key sas_token : String) (c : StorageClient)
    (ha : cs.account_name = some account) (hk : cs.account_key = some key)
    (hsa : cs.sas = some sas_token)
    (hc : StorageClient.new_connection_string cs = Except.ok c) :
    StorageCredentials.sas_token sas_token = Except.ok c.storage_credentials ∧
    (∀ params, get_sas_token_parms sas_token = Except.ok params →
      c.storage_credentials = StorageCredentials.SASToken params) ∧
    c.storage_credentials.isKey = false := by
  obtain ⟨an, ak, sas, be, te, qe, fe⟩ := cs
  simp only at ha hk hsa
  subst ha
  subst hk
  subst hsa
  unfold StorageClient.new_connection_string at hc
  dsimp only at hc
  cases hs2 : StorageCredentials.sas_token sas_token with
  | error e => rw [hs2] at hc; exact absurd hc (by simp)
  | ok scred =>
  rw [hs2] at hc
  cases h1 : get_endpoint_uri be account "blob" with
  | error e => rw [h1] at hc; exact absurd hc (by simp)
  | ok u1 =>
  rw [h1] at hc
  cases h2 : get_endpoint_uri te account "table" with
  | error e => rw [h2] at hc; exact absurd hc (by simp)
  | ok u2 =>
  rw [h2] at hc
  cases h3 : get_endpoint_uri qe account "queue" with
  | error e => rw [h3] at hc; exact absurd hc (by simp)
  | ok u3 =>
  rw [h3] at hc
  cases h4 : get_endpoint_uri qe (account ++ "-secondary") "queue" with
  | error e => rw [h4] at hc; exact absurd hc (by simp)
  | ok u4 =>
  rw [h4] at hc
  cases h5 : get_endpoint_uri fe account "dfs" with
  | error e => rw [h5] at hc; exact absurd hc (by simp)
  | ok u5 =>
  rw [h5] at hc
  simp only [Except.ok.injEq] at hc
  rw [← hc]
  refine ⟨rfl, ?_, ?_⟩
  · intro params hp
    unfold StorageCredentials.sas_token at hs2
    rw [hp] at hs2
    simp only [Except.ok.injEq] at hs2
    rw [← hs2]
  · unfold StorageCredentials.sas_token at hs2
    cases hp : get_sas_token_parms sas_token with
    | error e => rw [hp] at hs2; exact absurd hs2 (by simp)
    | ok params =>
      rw [hp] at hs2
      simp only [Except.ok.injEq] at hs2
      rw [← hs2]
      rfl

/-- Connection string with account name, key and SAS, used by the C5
witness. -/
def csBothEx : ConnectionString :=
  { account_name := some "acct", account_key := some "key",
    sas := some "sv=1&sig=abc" }

/-- Client built from csBothEx, used by the C5 witness. -/
def csBothClient : StorageClient :=
  (StorageClient.new_connection_string csBothEx).toOption.getD defaultStorageClient

/-- Witness for C5 at a concrete connection string carrying both a key
and a SAS token. -/
theorem connection_string_prefers_sas_witness :
    csBothEx.account_name = some "acct" ∧
    csBothEx.account_key = some "key" ∧
    csBothEx.sas = some "sv=1&sig=abc" ∧
    csBothClient.storage_credentials.isKey = false :=
  ⟨rfl, rfl, rfl,
   (connection_string_prefers_sas csBothEx "acct" "key" "sv=1&sig=abc" csBothClient
      rfl rfl rfl (by decide)).2.2⟩

/- ===================== C7: finalize_request headers ===================== -/

theorem find?_filter_append_self (l : List (String × String)) (m v : String) :
    ((l.filter (fun p => !(p.1 == m))) ++ [(m, v)]).find? (fun p => p.1 == m) =
      some (m, v) := by
  induction l with
  | nil => simp [List.find?]
  | cons a t ih =>
    by_cases h : a.1 == m
    · simp [List.filter_cons, h, ih]
    · simp [List.filter_cons, h, List.find?, ih]

theorem find?_filter_append_other (l : List (String × String)) (m q v : String)
    (hne : (m == q) = false) :
    ((l.filter (fun p => !(p.1 == m))) ++ [(m, v)]).find? (fun p => p.1 == q) =
      l.find? (fun p => p.1 == q) := by
  induction l with
  | nil => simp [List.find?, hne]
  | cons a t ih =>
    by_cases h : a.1 == m
    · have ha : a.1 = m := by simpa using h
      have haq : (a.1 == q) = false := by rw [ha]; exact hne
      simp [List.filter_cons, h, List.find?, haq, ih]
    · by_cases hq : a.1 == q
      · simp [List.filter_cons, h, List.find?, hq]
      · simp [List.filter_cons, h, List.find?, hq, ih]

theorem headersGet_insert_self (r : Request) (n v : String) :
    headersGet (r.insert_header n v).headers n = some v := by
  unfold Request.insert_header headersGet
  dsimp only
  rw [find?_filter_append_self]
  rfl

theorem headersGet_insert_other (r : Request) (n q v : String)
    (hne : (lowerAscii n == lowerAscii q) = false) :
    headersGet (r.insert_header n v).headers q = headersGet r.headers q := by
  unfold Request.insert_header headersGet
  dsimp only
  rw [find?_filter_append_other _ _ _ _ hne]

/-- C7: whatever the caller-supplied headers, every request built by
finalize_request carries a content-length header equal to the body length
(the string 0 with no body), the request date rendered in RFC-1123 form,
and the fixed API version 2019-12-12. -/
theorem finalize_request_fixed_headers (dt : OffsetDateTime) (url : Url)
    (method : Method) (headers : Headers) (request_body : Option Body) :
    Except.map
        (fun r => (headersGet r.headers CONTENT_LENGTH,
                   headersGet r.headers MS_DATE,
                   headersGet r.headers VERSION))
        (finalize_request dt url method headers request_body) =
      Except.ok (some (match request_body with
                       | some b => toString (Body.len b)
                       | none => "0"),
                 some (date.to_rfc1123 dt), some AZURE_VERSION) := by
  cases request_body with
  | none =>
    unfold finalize_request
    dsimp only [Except.map, Request.set_body]
    rw [headersGet_insert_other _ VERSION CONTENT_LENGTH _ (by decide),
        headersGet_insert_other _ MS_DATE CONTENT_LENGTH _ (by decide),
        headersGet_insert_self,
        headersGet_insert_other _ VERSION MS_DATE _ (by decide),
        headersGet_insert_self,
        headersGet_insert_self]
  | some b =>
    unfold finalize_request
    dsimp only [Except.map, Request.set_body]
    rw [headersGet_insert_other _ VERSION CONTENT_LENGTH _ (by decide),
        headersGet_insert_other _ MS_DATE CONTENT_LENGTH _ (by decide),
        headersGet_insert_self,
        headersGet_insert_other _ VERSION MS_DATE _ (by decide),
        headersGet_insert_self,
        headersGet_insert_self]
